import Mathlib

/-!
Shallow embedding of the utils module of the cheribuild repository
(pycheribuild/utils.py): the process-wide configuration with a failing
sentinel, the error-context stack, diagnostic and fatal-error reporting,
the interactive yes/no query, the cached internet-connectivity probe and
the ThreadJoiner scope guard.

Console output is modelled as a list of events.  Process termination
(sys.exit) and Python exceptions are modelled as an in-flight exception
value of type PyExc carried in an Except result.
-/

namespace Cheribuild

/-- Python exception values that the modelled code can raise. -/
inductive PyExc where
  | valueError (msg : String)
  | assertionError (msg : String)
  | typeError (msg : String)
  | indexError (msg : String)
  | systemExit (code : Nat)
  deriving DecidableEq

/-- A slot holding one global-config flag: either the DoNotUseInIfStmt
sentinel installed before initialisation, or a real boolean. -/
inductive FlagValue where
  | doNotUseInIfStmt
  | value (b : Bool)
  deriving DecidableEq

/-- Python truthiness of a flag slot.  DoNotUseInIfStmt has a dunder bool
method that raises ValueError; a real bool is its own truth value. -/
def py_bool : FlagValue → Except PyExc Bool
  | FlagValue.doNotUseInIfStmt => Except.error (PyExc.valueError ("Should not be used"))
  | FlagValue.value b => Except.ok b

/-- Python len() of a flag slot.  DoNotUseInIfStmt has a dunder len method
that raises ValueError; a real bool has no length, so len raises TypeError. -/
def py_len : FlagValue → Except PyExc Nat
  | FlagValue.doNotUseInIfStmt => Except.error (PyExc.valueError ("Should not be used"))
  | FlagValue.value _ => Except.error (PyExc.typeError ("object of type bool has no length"))

/-- Truth value of the Python conjunction (a and b) under an assert:
truthiness of a; if falsy the conjunction is falsy, otherwise the
truthiness of b.  Truthiness failures propagate. -/
def py_and (a b : FlagValue) : Except PyExc Bool :=
  match py_bool a with
  | Except.error e => Except.error e
  | Except.ok false => Except.ok false
  | Except.ok true => py_bool b

/-- The ConfigBase record: the four mode flags passed to the constructor,
plus the fields the constructor sets itself and the TEST_MODE attribute
(class default false, overwritten by init_global_config). -/
structure ConfigBase where
  pretend : FlagValue
  verbose : FlagValue
  quiet : FlagValue
  force : FlagValue
  presume_connectivity : Bool
  internet_connection_last_checked_at : Option ℚ
  internet_connection_last_check_result : Bool
  TEST_MODE : Bool
  deriving DecidableEq

/-- The ConfigBase constructor: stores the four flags and initialises
presume_connectivity to false, the connectivity cache to empty and the
last check result to false; TEST_MODE keeps its class default false. -/
def mk_ConfigBase (pretend verbose quiet force : FlagValue) : ConfigBase :=
  { pretend := pretend, verbose := verbose, quiet := quiet, force := force,
    presume_connectivity := false,
    internet_connection_last_checked_at := none,
    internet_connection_last_check_result := false,
    TEST_MODE := false }

/-- The module-level GlobalConfig placeholder: a ConfigBase whose four
flags are all DoNotUseInIfStmt sentinels. -/
def GlobalConfig_initial : ConfigBase :=
  mk_ConfigBase FlagValue.doNotUseInIfStmt FlagValue.doNotUseInIfStmt
    FlagValue.doNotUseInIfStmt FlagValue.doNotUseInIfStmt

/-- init_global_config: unconditionally rebinds GlobalConfig to the given
config, sets its TEST_MODE attribute, then asserts that verbose and quiet
are not both truthy.  The first component is the new global state (the
rebinding happens before the assert); the second is the outcome of the
assert, an AssertionError when both flags are truthy, or a ValueError
when a sentinel flag is queried for truthiness. -/
def init_global_config (config : ConfigBase) (test_mode : Bool) (_old : ConfigBase) :
    ConfigBase × Except PyExc Unit :=
  let g := { config with TEST_MODE := test_mode }
  (g, match py_and g.verbose g.quiet with
      | Except.error e => Except.error e
      | Except.ok true => Except.error (PyExc.assertionError ("mutually exclusive"))
      | Except.ok false => Except.ok ())

/-- get_global_config returns the current global instance. -/
def get_global_config (st : ConfigBase) : ConfigBase := st

/-- One observable console or thread action of the modelled code. -/
inductive Event where
  | stdout (s : String)
  | stderr (s : String)
  | printStack
  | startThread (threadName : String)
  | joinThread (threadName : String)
  | readInput (prompt : String)
  deriving DecidableEq

/-- maybe_add_space: with an empty separator the message is followed by an
explicit single-space element, otherwise it stands alone. -/
def maybe_add_space (msg : String) (sep : String) : List String :=
  if sep = ("") then [msg, (" ")] else [msg]

/-- Modelled from the spec: the colour module (colour.py) of this
repository is not part of the analysed source.  The spec excludes colour
presentation from scope and states that a message is the severity prefix
plus the sep-joined arguments, so coloured is modelled as plain joining
with the separator and the colour escape sequences are dropped. -/
def coloured_msg (sep : String) (args : List String) : String :=
  String.intercalate sep args

/-- The private error-context formatter: when the error-context stack is
nonempty, the prefix is extended with the topmost (last) context entry
and a colon, otherwise just with a colon; either way the arguments are
joined behind it with the separator (colour escapes dropped, see
coloured_msg). -/
def _add_error_context (prefixStr : String) (args : List String) (sep : String)
    (ctx : List String) : String :=
  match ctx.getLast? with
  | some c => coloured_msg sep (maybe_add_space (prefixStr ++ (" ") ++ c ++ (":")) sep ++ args)
  | none => coloured_msg sep (maybe_add_space (prefixStr ++ (":")) sep ++ args)

/-- fixit_message: one stderr line with the fixed prefix, joined with its
default single-space separator. -/
def fixit_message_events (h : String) : List Event :=
  [Event.stderr (coloured_msg (" ") (maybe_add_space ("Possible solution:") (" ") ++ [h]))]

/-- The optional fixit hint of a warning, error or fatal call: printed
only when present and truthy (a nonempty string). -/
def fixit_opt_events : Option String → List Event
  | none => []
  | some h => if h = ("") then [] else fixit_message_events h

/-- The default value of the exit_code parameter of fatal_error. -/
def fatal_error_default_exit_code : Nat := 3

/-- fatal_error: when pretend is truthy, prints the message with the
prefix Potential fatal error and the optional fixit hint; it then either
returns control (fatal_when_pretending false) or prints the current call
stack and exits with the given code (fatal_when_pretending true).  When
pretend is falsy it prints the message with the prefix Fatal error, the
optional fixit hint, and exits with the given code.  Truthiness failures
of the pretend argument propagate. -/
def fatal_error (args : List String) (sep : String) (fixit_hint : Option String)
    (fatal_when_pretending : Bool) (exit_code : Nat) (pretend : FlagValue)
    (ctx : List String) : List Event × Except PyExc Unit :=
  match py_bool pretend with
  | Except.error e => ([], Except.error e)
  | Except.ok true =>
    let evs := Event.stderr (_add_error_context ("Potential fatal error") args sep ctx) ::
      fixit_opt_events fixit_hint
    if fatal_when_pretending then
      (evs ++ [Event.printStack], Except.error (PyExc.systemExit exit_code))
    else
      (evs, Except.ok ())
  | Except.ok false =>
    (Event.stderr (_add_error_context ("Fatal error") args sep ctx) ::
       fixit_opt_events fixit_hint,
     Except.error (PyExc.systemExit exit_code))

/-- add_error_context: appends the context label to the stack, runs the
body on the extended stack, pops the top entry on a normal return, and on
a failing body re-raises the same failure without popping. -/
def add_error_context (context : String) {α : Type}
    (body : List String → Except PyExc α × List String) (stack : List String) :
    Except PyExc α × List String :=
  let s1 := stack ++ [context]
  match body s1 with
  | (Except.error e, s2) => (Except.error e, s2)
  | (Except.ok a, s2) =>
    if s2 = [] then (Except.error (PyExc.indexError ("pop from empty list")), s2)
    else (Except.ok a, s2.dropLast)

/-- The prompt suffix of query_yes_no: the explicit yes_no_str when one is
given, otherwise a default derived from default_result. -/
def yes_no_string (yes_no_str : Option String) (default_result : Bool) : String :=
  match yes_no_str with
  | some s => s
  | none => if default_result then (" [Y]/n ") else (" y/[N] ")

/-- query_yes_no: in pretend mode, and otherwise in force mode, prints the
prompt together with the chosen answer and returns force_result without
reading input; with no terminal on stdin it returns default_result
without any output; otherwise it reads a reply and parses it against
default_result.  Truthiness failures of the flags propagate. -/
def query_yes_no (config : ConfigBase) (message : String)
    (default_result force_result : Bool) (yes_no_str : Option String)
    (isatty : Bool) (user_input : String) : List Event × Except PyExc Bool :=
  let ys := yes_no_string yes_no_str default_result
  match py_bool config.pretend with
  | Except.error e => ([], Except.error e)
  | Except.ok true =>
    ([Event.stdout (message ++ ys ++ (if force_result then ("y") else ("n")))],
     Except.ok force_result)
  | Except.ok false =>
    match py_bool config.force with
    | Except.error e => ([], Except.error e)
    | Except.ok true =>
      ([Event.stdout (message ++ ys ++ (if force_result then ("y") else ("n")))],
       Except.ok force_result)
    | Except.ok false =>
      if isatty then
        ([Event.readInput (message ++ ys)],
         Except.ok (if default_result then !(user_input.startsWith ("n"))
                    else (user_input.toLower.startsWith ("y"))))
      else ([], Except.ok default_result)

/-- Outcome of the TCP probe attempt inside the connectivity check: the
connect call succeeds, fails with an OSError, or fails with some other
unexpected exception. -/
inductive ProbeOutcome where
  | success
  | osError
  | unexpected (ex : String)
  deriving DecidableEq

/-- The boolean the probe body assigns for each outcome: true on a
successful connection, false on an OSError, and false on an unexpected
exception (the initial value, since the assignment after the fatal call
is reached only when the fatal call returns). -/
def probe_result : ProbeOutcome → Bool
  | ProbeOutcome.success => true
  | ProbeOutcome.osError => false
  | ProbeOutcome.unexpected _ => false

/-- The probing tail of have_working_internet_connection: attempts the
connection, on an unexpected exception invokes fatal_error with the
default arguments and pretend taken from the config, and then runs the
finally block: the cache fields are overwritten with the probed result
and timestamp, and the return statement inside finally discards any
in-flight exception (the second component of fatal_out), so the probed
boolean is always returned. -/
def probe_and_update (config : ConfigBase) (now : ℚ) (probe : ProbeOutcome)
    (ctx : List String) : List Event × Except PyExc Bool × ConfigBase :=
  let fatal_out : List Event × Except PyExc Unit :=
    match probe with
    | ProbeOutcome.unexpected ex =>
      fatal_error [("Something went wrong while checking for internet connection"), ex]
        (" ") none false fatal_error_default_exit_code config.pretend ctx
    | _ => ([], Except.ok ())
  (fatal_out.1, Except.ok (probe_result probe),
   { config with
       internet_connection_last_check_result := probe_result probe,
       internet_connection_last_checked_at := some now })

/-- have_working_internet_connection: returns true at once in test mode or
with presumed connectivity; else, when the recorded check time is truthy
(present and nonzero, Python float truthiness) and the current time is
strictly below it plus 60 seconds, returns the cached boolean untouched;
otherwise probes and updates the cache. -/
def have_working_internet_connection (config : ConfigBase) (now : ℚ)
    (probe : ProbeOutcome) (ctx : List String) :
    List Event × Except PyExc Bool × ConfigBase :=
  if config.TEST_MODE || config.presume_connectivity then ([], Except.ok true, config)
  else
    match config.internet_connection_last_checked_at with
    | some t =>
      if t ≠ 0 then
        if now < t + 60 then
          ([], Except.ok config.internet_connection_last_check_result, config)
        else probe_and_update config now probe ctx
      else probe_and_update config now probe ctx
    | none => probe_and_update config now probe ctx

/-- A thread handle held by a ThreadJoiner: its name, and the scheduler
choice of whether it finishes on its own while the scope body runs (so it
is no longer alive when the exit handler inspects it). -/
structure PThread where
  name : String
  finishes_during_body : Bool
  deriving DecidableEq

/-- Lifecycle state of one thread handle. -/
inductive TState where
  | notStarted
  | running
  | finished
  deriving DecidableEq

/-- ThreadJoiner holds an ordered list of thread handles. -/
structure ThreadJoiner where
  threads : List PThread
  deriving DecidableEq

/-- The constructor argument of ThreadJoiner: none, a single thread, or a
list of threads. -/
inductive ThreadsArg where
  | noThreads
  | oneThread (t : PThread)
  | threadList (ts : List PThread)

/-- The ThreadJoiner constructor: a missing argument yields the empty
list, a single thread is wrapped in a singleton list, and a list is
stored as given. -/
def ThreadJoiner.fromArg : ThreadsArg → ThreadJoiner
  | ThreadsArg.noThreads => ⟨[]⟩
  | ThreadsArg.oneThread t => ⟨[t]⟩
  | ThreadsArg.threadList ts => ⟨ts⟩

/-- The dunder add of ThreadJoiner: constructs a new joiner from the
concatenation of both thread lists. -/
def ThreadJoiner.add (a b : ThreadJoiner) : ThreadJoiner :=
  ThreadJoiner.fromArg (ThreadsArg.threadList (a.threads ++ b.threads))

/-- The scope-entry handler: starts every held thread in order. -/
def ThreadJoiner.enterEvents (tj : ThreadJoiner) : List Event :=
  tj.threads.map (fun t => Event.startThread t.name)

/-- The waiting announcement printed by the exit handler through
status_update with an empty separator: the pieces are joined directly. -/
def waiting_message (threadName : String) : String :=
  String.intercalate ("") [("Waiting for \x27"), threadName, ("\x27 to complete")]

/-- The scope-exit handler over the threads paired with their state at
exit time: in order, each thread that is still alive gets a by-name
waiting announcement, and every thread is joined (a join on an already
finished thread returns at once); afterwards every thread is finished. -/
def tj_exit : List (PThread × TState) → List Event × List TState
  | [] => ([], [])
  | (t, st) :: rest =>
    let evs := (if st = TState.running then [Event.stdout (waiting_message t.name)] else []) ++
      [Event.joinThread t.name]
    let r := tj_exit rest
    (evs ++ r.1, TState.finished :: r.2)

/-- State of each held thread when the scope body has ended: started by
the entry handler, and finished already when the scheduler let it
complete during the body, else still running. -/
def after_body_states (ts : List PThread) : List (PThread × TState) :=
  ts.map (fun t => (t, if t.finishes_during_body then TState.finished else TState.running))

/-- A with-statement over a ThreadJoiner: the entry handler starts all
threads, the body runs to its outcome, and the exit handler runs whether
the body succeeded or failed; since the exit handler returns a falsy
value, a body failure keeps propagating unchanged. -/
def run_with_joiner (tj : ThreadJoiner) (body : Except PyExc Unit) :
    List Event × List TState × Except PyExc Unit :=
  let ex := tj_exit (after_body_states tj.threads)
  (tj.enterEvents ++ ex.1, ex.2, body)

/-- Claim C1: for every message, separator, fixit hint, exit code and
error-context stack, fatal_error with pretend true and
fatal_when_pretending false prints the Potential fatal error variant of
the message (plus the optional hint) and returns control to the caller;
with pretend true and fatal_when_pretending true it additionally prints
the current call stack and terminates with the given exit code; with
pretend false it prints the Fatal error variant (for any
fatal_when_pretending) and terminates with the given exit code, whose
default value is 3. -/
theorem fatal_error_spec (args : List String) (sep : String) (hint : Option String)
    (ec : Nat) (fwp : Bool) (ctx : List String) :
    fatal_error args sep hint false ec (FlagValue.value true) ctx =
      (Event.stderr (_add_error_context ("Potential fatal error") args sep ctx) ::
         fixit_opt_events hint,
       Except.ok ()) ∧
    fatal_error args sep hint true ec (FlagValue.value true) ctx =
      ((Event.stderr (_add_error_context ("Potential fatal error") args sep ctx) ::
          fixit_opt_events hint) ++ [Event.printStack],
       Except.error (PyExc.systemExit ec)) ∧
    fatal_error args sep hint fwp ec (FlagValue.value false) ctx =
      (Event.stderr (_add_error_context ("Fatal error") args sep ctx) ::
         fixit_opt_events hint,
       Except.error (PyExc.systemExit ec)) ∧
    (fatal_error args sep hint fwp fatal_error_default_exit_code (FlagValue.value false) ctx).2 =
      Except.error (PyExc.systemExit 3) :=
  ⟨rfl, rfl, rfl, rfl⟩

/-- Claim C3: before initialisation every flag of the global config is the
sentinel, and both the truthiness query and the length query on each of
the four flags fail with a ValueError instead of yielding a default;
after init_global_config has installed a config carrying real booleans,
reading each flag of get_global_config returns exactly the supplied
value. -/
theorem global_config_sentinel_spec :
    (py_bool (get_global_config GlobalConfig_initial).pretend =
        Except.error (PyExc.valueError ("Should not be used")) ∧
      py_bool (get_global_config GlobalConfig_initial).verbose =
        Except.error (PyExc.valueError ("Should not be used")) ∧
      py_bool (get_global_config GlobalConfig_initial).quiet =
        Except.error (PyExc.valueError ("Should not be used")) ∧
      py_bool (get_global_config GlobalConfig_initial).force =
        Except.error (PyExc.valueError ("Should not be used"))) ∧
    (py_len (get_global_config GlobalConfig_initial).pretend =
        Except.error (PyExc.valueError ("Should not be used")) ∧
      py_len (get_global_config GlobalConfig_initial).verbose =
        Except.error (PyExc.valueError ("Should not be used")) ∧
      py_len (get_global_config GlobalConfig_initial).quiet =
        Except.error (PyExc.valueError ("Should not be used")) ∧
      py_len (get_global_config GlobalConfig_initial).force =
        Except.error (PyExc.valueError ("Should not be used"))) ∧
    ∀ (p v q f tm : Bool) (st : ConfigBase),
      (get_global_config
          (init_global_config
            (mk_ConfigBase (FlagValue.value p) (FlagValue.value v)
              (FlagValue.value q) (FlagValue.value f)) tm st).1).pretend =
          FlagValue.value p ∧
      (get_global_config
          (init_global_config
            (mk_ConfigBase (FlagValue.value p) (FlagValue.value v)
              (FlagValue.value q) (FlagValue.value f)) tm st).1).verbose =
          FlagValue.value v ∧
      (get_global_config
          (init_global_config
            (mk_ConfigBase (FlagValue.value p) (FlagValue.value v)
              (FlagValue.value q) (FlagValue.value f)) tm st).1).quiet =
          FlagValue.value q ∧
      (get_global_config
          (init_global_config
            (mk_ConfigBase (FlagValue.value p) (FlagValue.value v)
              (FlagValue.value q) (FlagValue.value f)) tm st).1).force =
          FlagValue.value f :=
  ⟨⟨rfl, rfl, rfl, rfl⟩, ⟨rfl, rfl, rfl, rfl⟩,
    fun _ _ _ _ _ _ => ⟨rfl, rfl, rfl, rfl⟩⟩

/-- Claim C4: init_global_config on a config with real boolean flags fails
with the mutual-exclusion assertion exactly when verbose and quiet are
both true, and succeeds when at most one of them is true. -/
theorem init_global_config_mutual_exclusion (p f v q tm : Bool) (st : ConfigBase) :
    (init_global_config
        (mk_ConfigBase (FlagValue.value p) (FlagValue.value v)
          (FlagValue.value q) (FlagValue.value f)) tm st).2 =
      (if v && q then Except.error (PyExc.assertionError ("mutually exclusive"))
       else Except.ok ()) := by
  cases v <;> cases q <;> rfl

/-- Claim C9: the concatenation of two ThreadJoiner values is a joiner
whose ordered thread sequence is the thread sequence of the first
followed by the thread sequence of the second. -/
theorem thread_joiner_add_spec (a b : ThreadJoiner) :
    (a.add b).threads = a.threads ++ b.threads := rfl

/-- Claim C10: query_yes_no with pretend true, and likewise with pretend
false but force true, prints the prompt together with the chosen answer
and returns force_result without ever reading input, for every
default_result and terminal state; with pretend and force false and no
terminal on stdin it returns default_result exactly, with no output and
no prompt. -/
theorem query_yes_no_spec (vf qf ff : FlagValue) (msg : String) (dr fr : Bool)
    (ys : Option String) (tty : Bool) (inp : String) :
    query_yes_no (mk_ConfigBase (FlagValue.value true) vf qf ff) msg dr fr ys tty inp =
      ([Event.stdout (msg ++ yes_no_string ys dr ++ (if fr then ("y") else ("n")))],
       Except.ok fr) ∧
    query_yes_no (mk_ConfigBase (FlagValue.value false) vf qf (FlagValue.value true))
        msg dr fr ys tty inp =
      ([Event.stdout (msg ++ yes_no_string ys dr ++ (if fr then ("y") else ("n")))],
       Except.ok fr) ∧
    query_yes_no (mk_ConfigBase (FlagValue.value false) vf qf (FlagValue.value false))
        msg dr fr ys false inp =
      ([], Except.ok dr) :=
  ⟨rfl, rfl, rfl⟩

/-- Claim C2: add_error_context pushes the context label, and a body that
returns normally leaving the pushed stack in place yields a final stack
identical to the original (push then pop); a body that fails propagates
exactly its own failure, unmodified, and the stack is left as the body
left it, so when the body kept the pushed stack the context label stays
on top. -/
theorem add_error_context_spec (context : String) (stack : List String) (α : Type)
    (body : List String → Except PyExc α × List String) (a : α) (e : PyExc)
    (s2 : List String) :
    (body (stack ++ [context]) = (Except.ok a, stack ++ [context]) →
      add_error_context context body stack = (Except.ok a, stack)) ∧
    (body (stack ++ [context]) = (Except.error e, s2) →
      add_error_context context body stack = (Except.error e, s2)) ∧
    (stack ++ [context]).getLast? = some context := by
  refine ⟨fun h => ?_, fun h => ?_, ?_⟩
  · simp only [add_error_context, h]
    simp
  · simp only [add_error_context, h]
  · simp

/-- Concrete run of the add_error_context specification: a normally
returning body restores the empty stack, and a failing body propagates
its ValueError with the context label left on the stack. -/
theorem add_error_context_spec_witness :
    add_error_context ("X") (fun s => (Except.ok 0, s)) [] = (Except.ok 0, []) ∧
    add_error_context ("X")
        (fun s => ((Except.error (PyExc.valueError ("boom")) : Except PyExc Nat), s)) [] =
      (Except.error (PyExc.valueError ("boom")), [("X")]) :=
  ⟨(add_error_context_spec ("X") [] Nat (fun s => (Except.ok 0, s)) 0
      (PyExc.valueError ("boom")) [("X")]).1 rfl,
   (add_error_context_spec ("X") [] Nat
      (fun s => ((Except.error (PyExc.valueError ("boom")) : Except PyExc Nat), s)) 0
      (PyExc.valueError ("boom")) [("X")]).2.1 rfl⟩

/-- Closed form of the exit handler applied to the post-body states: the
announcements and joins happen thread by thread in list order, and every
thread ends finished. -/
theorem tj_exit_after_body (l : List PThread) :
    tj_exit (after_body_states l) =
      (l.flatMap (fun t =>
         (if t.finishes_during_body then [] else [Event.stdout (waiting_message t.name)]) ++
           [Event.joinThread t.name]),
       List.replicate l.length TState.finished) := by
  induction l with
  | nil => rfl
  | cons t rest ih =>
    cases hf : t.finishes_during_body <;>
      simp [after_body_states, tj_exit, hf, List.replicate_succ,
        after_body_states] at ih ⊢ <;>
      simp [ih]

/-- Claim C6: for every joiner and every body outcome, the guarded scope
starts every held thread in order on entry; on exit, whether the body
succeeded or failed, the threads are processed in the same order, each
thread still running gets a by-name waiting announcement before its join,
and by the time the scope exits every held thread has been joined (all
states are finished); the body outcome itself propagates unchanged. -/
theorem thread_joiner_scope_spec (tj : ThreadJoiner) (body : Except PyExc Unit) :
    run_with_joiner tj body =
      (tj.threads.map (fun t => Event.startThread t.name) ++
         tj.threads.flatMap (fun t =>
           (if t.finishes_during_body then []
            else [Event.stdout (waiting_message t.name)]) ++
             [Event.joinThread t.name]),
       List.replicate tj.threads.length TState.finished,
       body) ∧
    ∀ s ∈ (run_with_joiner tj body).2.1, s = TState.finished := by
  have h := tj_exit_after_body tj.threads
  constructor
  · simp [run_with_joiner, h, ThreadJoiner.enterEvents]
  · intro s hs
    simp only [run_with_joiner, h] at hs
    exact List.eq_of_mem_replicate hs

/-- The probing tail always returns the probed boolean and stores it in
the cache together with the probe timestamp. -/
theorem probe_and_update_snd (config : ConfigBase) (now : ℚ) (pr : ProbeOutcome)
    (ctx : List String) :
    (probe_and_update config now pr ctx).2 =
      (Except.ok (probe_result pr),
       { config with
           internet_connection_last_check_result := probe_result pr,
           internet_connection_last_checked_at := some now }) := by
  cases pr <;> rfl

/-- A connectivity check on a freshly constructed config (no test mode, no
presumed connectivity, empty cache) runs the probing tail. -/
theorem hwic_fresh_probes (p v q f : Bool) (now : ℚ) (pr : ProbeOutcome)
    (ctx : List String) :
    have_working_internet_connection
        (mk_ConfigBase (FlagValue.value p) (FlagValue.value v)
          (FlagValue.value q) (FlagValue.value f)) now pr ctx =
      probe_and_update
        (mk_ConfigBase (FlagValue.value p) (FlagValue.value v)
          (FlagValue.value q) (FlagValue.value f)) now pr ctx := rfl

/-- A connectivity check on a config whose recorded check time is present,
nonzero and less than 60 seconds old returns the cached boolean with no
output and no state change. -/
theorem hwic_cached (c : ConfigBase) (now t : ℚ) (pr : ProbeOutcome) (ctx : List String)
    (hT : c.TEST_MODE = false) (hP : c.presume_connectivity = false)
    (hc : c.internet_connection_last_checked_at = some t) (h0 : t ≠ 0)
    (hlt : now < t + 60) :
    have_working_internet_connection c now pr ctx =
      ([], Except.ok c.internet_connection_last_check_result, c) := by
  simp [have_working_internet_connection, hT, hP, hc, h0, hlt]

/-- A connectivity check on a config whose recorded check time is present
and nonzero but 60 or more seconds old runs the probing tail. -/
theorem hwic_stale_probes (c : ConfigBase) (now t : ℚ) (pr : ProbeOutcome)
    (ctx : List String) (hT : c.TEST_MODE = false) (hP : c.presume_connectivity = false)
    (hc : c.internet_connection_last_checked_at = some t) (h0 : t ≠ 0)
    (hge : t + 60 ≤ now) :
    have_working_internet_connection c now pr ctx = probe_and_update c now pr ctx := by
  simp [have_working_internet_connection, hT, hP, hc, h0, not_lt.mpr hge]

/-- Claim C5 (amended to require a nonzero recorded check time, since a
recorded timestamp of exactly zero is falsy and treated as no cache
entry): a first check on a fresh config probes and records the probed
boolean and timestamp; a second check strictly less than 60 seconds after
the recorded time returns the identical cached boolean with no probing
and no state change, even when the actual reachability outcome changed;
a check 60 or more seconds after the recorded time probes again, may
return a different value, and records the new timestamp and result. -/
theorem connectivity_cache_spec (p v q f : Bool) (t1 t2 t3 : ℚ)
    (p1 p2 p3 : ProbeOutcome) (ctx : List String)
    (h0 : t1 ≠ 0) (h2 : t2 < t1 + 60) (h3 : t1 + 60 ≤ t3) :
    (have_working_internet_connection
        (mk_ConfigBase (FlagValue.value p) (FlagValue.value v)
          (FlagValue.value q) (FlagValue.value f)) t1 p1 ctx).2.1 =
      Except.ok (probe_result p1) ∧
    (have_working_internet_connection
        (mk_ConfigBase (FlagValue.value p) (FlagValue.value v)
          (FlagValue.value q) (FlagValue.value f)) t1 p1 ctx).2.2.internet_connection_last_checked_at =
      some t1 ∧
    (have_working_internet_connection
        (mk_ConfigBase (FlagValue.value p) (FlagValue.value v)
          (FlagValue.value q) (FlagValue.value f)) t1 p1 ctx).2.2.internet_connection_last_check_result =
      probe_result p1 ∧
    have_working_internet_connection
        (have_working_internet_connection
          (mk_ConfigBase (FlagValue.value p) (FlagValue.value v)
            (FlagValue.value q) (FlagValue.value f)) t1 p1 ctx).2.2 t2 p2 ctx =
      ([], Except.ok (probe_result p1),
       (have_working_internet_connection
          (mk_ConfigBase (FlagValue.value p) (FlagValue.value v)
            (FlagValue.value q) (FlagValue.value f)) t1 p1 ctx).2.2) ∧
    (have_working_internet_connection
        (have_working_internet_connection
          (mk_ConfigBase (FlagValue.value p) (FlagValue.value v)
            (FlagValue.value q) (FlagValue.value f)) t1 p1 ctx).2.2 t3 p3 ctx).2.1 =
      Except.ok (probe_result p3) ∧
    (have_working_internet_connection
        (have_working_internet_connection
          (mk_ConfigBase (FlagValue.value p) (FlagValue.value v)
            (FlagValue.value q) (FlagValue.value f)) t1 p1 ctx).2.2 t3 p3 ctx).2.2.internet_connection_last_checked_at =
      some t3 ∧
    (have_working_internet_connection
        (have_working_internet_connection
          (mk_ConfigBase (FlagValue.value p) (FlagValue.value v)
            (FlagValue.value q) (FlagValue.value f)) t1 p1 ctx).2.2 t3 p3 ctx).2.2.internet_connection_last_check_result =
      probe_result p3 := by
  set c0 := mk_ConfigBase (FlagValue.value p) (FlagValue.value v)
    (FlagValue.value q) (FlagValue.value f) with hc0
  have h1 : (have_working_internet_connection c0 t1 p1 ctx).2 =
      (Except.ok (probe_result p1),
       { c0 with
           internet_connection_last_check_result := probe_result p1,
           internet_connection_last_checked_at := some t1 }) := by
    rw [hwic_fresh_probes, probe_and_update_snd]
  set c1 := (have_working_internet_connection c0 t1 p1 ctx).2.2 with hc1
  have hc1eq : c1 = { c0 with
      internet_connection_last_check_result := probe_result p1,
      internet_connection_last_checked_at := some t1 } := by
    rw [hc1, h1]
  have hres : (have_working_internet_connection c0 t1 p1 ctx).2.1 =
      Except.ok (probe_result p1) := by rw [h1]
  have hT : c1.TEST_MODE = false := by rw [hc1eq]; rfl
  have hP : c1.presume_connectivity = false := by rw [hc1eq]; rfl
  have hat : c1.internet_connection_last_checked_at = some t1 := by rw [hc1eq]
  have hrr : c1.internet_connection_last_check_result = probe_result p1 := by rw [hc1eq]
  have hcached := hwic_cached c1 t2 t1 p2 ctx hT hP hat h0 h2
  have hstale := hwic_stale_probes c1 t3 t1 p3 ctx hT hP hat h0 h3
  refine ⟨hres, hat, hrr, ?_, ?_, ?_, ?_⟩
  · rw [hcached, hrr]
  · rw [hstale, probe_and_update_snd]
  · rw [hstale, probe_and_update_snd]
  · rw [hstale, probe_and_update_snd]

/-- Concrete run of the connectivity cache specification at recorded time
1, a cached re-check at time 30, and a stale re-check at time 61, with
reachability flipping from success to failure between the checks. -/
theorem connectivity_cache_spec_witness :
    ((1 : ℚ) ≠ 0 ∧ (30 : ℚ) < 1 + 60 ∧ (1 : ℚ) + 60 ≤ 61) ∧
    have_working_internet_connection
        (have_working_internet_connection
          (mk_ConfigBase (FlagValue.value false) (FlagValue.value false)
            (FlagValue.value false) (FlagValue.value false)) 1 ProbeOutcome.success []).2.2
        30 ProbeOutcome.osError [] =
      ([], Except.ok true,
       (have_working_internet_connection
          (mk_ConfigBase (FlagValue.value false) (FlagValue.value false)
            (FlagValue.value false) (FlagValue.value false)) 1 ProbeOutcome.success []).2.2) :=
  ⟨⟨by norm_num, by norm_num, by norm_num⟩,
   (connectivity_cache_spec false false false false 1 30 61
      ProbeOutcome.success ProbeOutcome.osError ProbeOutcome.osError []
      (by norm_num) (by norm_num) (by norm_num)).2.2.2.1⟩

/-- Counterexample to claim C5 as stated: when the first probing check is
recorded at time exactly 0, the recorded timestamp is falsy, so a second
check only 30 seconds later (strictly less than 60) does not return the
cached boolean: the first check cached true, yet the second probes again
and returns false. -/
theorem connectivity_cache_zero_timestamp_counterexample :
    (have_working_internet_connection
        (mk_ConfigBase (FlagValue.value false) (FlagValue.value false)
          (FlagValue.value false) (FlagValue.value false)) 0 ProbeOutcome.success []).2.1 =
      Except.ok true ∧
    (have_working_internet_connection
        (mk_ConfigBase (FlagValue.value false) (FlagValue.value false)
          (FlagValue.value false) (FlagValue.value false)) 0
        ProbeOutcome.success []).2.2.internet_connection_last_checked_at = some 0 ∧
    (30 : ℚ) < 0 + 60 ∧
    (have_working_internet_connection
        (have_working_internet_connection
          (mk_ConfigBase (FlagValue.value false) (FlagValue.value false)
            (FlagValue.value false) (FlagValue.value false)) 0 ProbeOutcome.success []).2.2
        30 ProbeOutcome.osError []).2.1 =
      Except.ok false ∧
    (Except.ok false : Except PyExc Bool) ≠ Except.ok true := by
  refine ⟨rfl, rfl, by norm_num, ?_, by simp⟩
  rfl

/-- Claim C7: have_working_internet_connection returns an ordinary boolean
on every input: the return inside its finally block discards every
in-flight failure of the probe body, including the SystemExit raised by
the fatal-error path when an unexpected error occurs with pretend false
(shown explicitly: the invoked fatal_error call ends in SystemExit 3,
yet the function returns ok false on that very input). -/
theorem have_working_internet_connection_total (cfg : ConfigBase) (now : ℚ)
    (pr : ProbeOutcome) (ctx : List String) (ex : String) :
    (∃ b : Bool, (have_working_internet_connection cfg now pr ctx).2.1 = Except.ok b) ∧
    (fatal_error [("Something went wrong while checking for internet connection"), ex]
        (" ") none false fatal_error_default_exit_code (FlagValue.value false) ctx).2 =
      Except.error (PyExc.systemExit 3) ∧
    (have_working_internet_connection
        (mk_ConfigBase (FlagValue.value false) (FlagValue.value false)
          (FlagValue.value false) (FlagValue.value false)) now
        (ProbeOutcome.unexpected ex) ctx).2.1 =
      Except.ok false := by
  refine ⟨?_, rfl, ?_⟩
  · unfold have_working_internet_connection
    split
    · exact ⟨true, rfl⟩
    · split
      · split
        · split
          · exact ⟨cfg.internet_connection_last_check_result, rfl⟩
          · exact ⟨probe_result pr, by rw [probe_and_update_snd]⟩
        · exact ⟨probe_result pr, by rw [probe_and_update_snd]⟩
      · exact ⟨probe_result pr, by rw [probe_and_update_snd]⟩
  · rw [hwic_fresh_probes, probe_and_update_snd]
    rfl

/-- Counterexample to claim C8 as stated: init_global_config carries no
guard against re-initialisation; a second call outside test mode (both
calls with test_mode false) succeeds and replaces the previously
installed instance. -/
theorem reinit_outside_test_mode_counterexample :
    (init_global_config
        (mk_ConfigBase (FlagValue.value false) (FlagValue.value false)
          (FlagValue.value false) (FlagValue.value false)) false GlobalConfig_initial).2 =
      Except.ok () ∧
    (init_global_config
        (mk_ConfigBase (FlagValue.value true) (FlagValue.value false)
          (FlagValue.value false) (FlagValue.value false)) false
        (init_global_config
          (mk_ConfigBase (FlagValue.value false) (FlagValue.value false)
            (FlagValue.value false) (FlagValue.value false)) false
          GlobalConfig_initial).1).2 =
      Except.ok () ∧
    (get_global_config
        (init_global_config
          (mk_ConfigBase (FlagValue.value true) (FlagValue.value false)
            (FlagValue.value false) (FlagValue.value false)) false
          (init_global_config
            (mk_ConfigBase (FlagValue.value false) (FlagValue.value false)
              (FlagValue.value false) (FlagValue.value false)) false
            GlobalConfig_initial).1).1).pretend =
      FlagValue.value true ∧
    (init_global_config
        (mk_ConfigBase (FlagValue.value false) (FlagValue.value false)
          (FlagValue.value false) (FlagValue.value false)) false
        GlobalConfig_initial).1.pretend =
      FlagValue.value false := by
  exact ⟨rfl, rfl, rfl, rfl⟩

/-- Claim C8 amended: init_global_config unconditionally installs the
given config (with its TEST_MODE attribute set) on every call; its
behaviour does not consult the previously installed state at all, so
re-initialisation is possible on any call, in or outside test mode. -/
theorem init_global_config_always_replaces (c : ConfigBase) (tm : Bool)
    (st st2 : ConfigBase) :
    (init_global_config c tm st).1 = { c with TEST_MODE := tm } ∧
    init_global_config c tm st = init_global_config c tm st2 :=
  ⟨rfl, rfl⟩

end Cheribuild
